import Mathlib

/-!
Shallow embedding of src/app.py (DKBot): a single-file Streamlit career
chatbot. Pure fragments of the program become Lean functions; the pieces of
Streamlit session state that the program reads and writes become explicit
values threaded through those functions; remote OpenAI calls become inputs
(their observed results) plus an explicit list of emitted effects.
-/

namespace DKBot

/-- A transcript turn as stored in st.session_state.messages: a role and a
content string. -/
structure Turn where
  role : String
  content : String
deriving DecidableEq

/-- Python str.strip as src/app.py uses it: drop whitespace characters from
both ends of the string, structurally over the underlying character list. -/
def pyStrip (s : String) : String :=
  ⟨((s.data.dropWhile Char.isWhitespace).reverse.dropWhile Char.isWhitespace).reverse⟩

/-- Truthiness of an optional string, as Python evaluates `if not key` and
`if st.session_state.get(k)`: None and the empty string are falsy. -/
def optTruthy : Option String → Bool
  | some s => !s.isEmpty
  | none => false

/-- The hardcoded fallback system prompt SYSTEM_PROMPT_FALLBACK of src/app.py. -/
def SYSTEM_PROMPT_FALLBACK : String := "You are Daaniyal Khan's Chief of Staff speaking to recruiters and C-level leaders.

Mission:
- Represent Daaniyal Khan as a strategic, commercially focused executive leader.
- Use only facts from the uploaded CV and project files.
- If details are uncertain or unavailable, say: \"Please ask Daaniyal directly in the interview.\"

Tone:
- Professional, concise, results-oriented, confident, polite.
- No fluff, no exaggeration.

Behavioral instructions:
1) Leadership questions:
   - Highlight onboarding and recruiting impact, including scaling to 2000+ partners.
   - Mention the Competence Center as a leadership and enablement mechanism.
2) Innovation questions:
   - Explain the Digital Sales Organization (DVO) and BVO-Portal outcomes.
3) Salary questions:
   - Use this wording:
     \"Daaniyal targets roles with significant strategic impact, typically in the €350k+ OTE range, depending on the package structure.\"
4) Accuracy guardrail:
   - Never hallucinate facts.
   - If asked beyond provided evidence, explicitly state that and use the interview fallback line.

Format:
- Keep answers compact (3-8 bullet points or a short executive paragraph).
- Where useful, include measurable outcomes from source documents.
"

/-- The literal interview fallback line of extract_assistant_text and of the
no-assistant-message branch of ask_assistant. -/
def fallbackLine : String := "Please ask Daaniyal directly in the interview."

/-- The fixed string ask_assistant returns when the polled run does not end
with status completed. -/
def runFailureLine : String :=
  "I encountered an issue while generating a response. Please ask Daaniyal directly in the interview."

/-- One content fragment of a thread message: part.type and part.text.value. -/
structure ContentPart where
  ptype : String
  text : String
deriving DecidableEq

/-- A message of the thread listing: its role and its content fragments. -/
structure Msg where
  role : String
  content : List ContentPart
deriving DecidableEq

/-- The loop body of extract_assistant_text before the trim: collect the
text-typed fragments and join them with a newline. -/
def concatText (m : Msg) : String :=
  String.intercalate "\n"
    ((m.content.filter (fun p => p.ptype == "text")).map (fun p => p.text))

/-- extract_assistant_text of src/app.py: the newline-joined text fragments,
trimmed; the Python `or` replaces an empty result with the fallback line. -/
def extract_assistant_text (m : Msg) : String :=
  let s := pyStrip (concatText m)
  if s.isEmpty then fallbackLine else s

/-- ask_assistant of src/app.py over the observable remote interaction: the
terminal status that create_and_poll reported, and the message list (newest
first) that messages.list returned. A non-completed run yields the fixed issue
string; otherwise the first assistant-role message is extracted; with no
assistant message at all the fallback line is returned. -/
def ask_assistant (runStatus : String) (messagesData : List Msg) : String :=
  if runStatus != "completed" then runFailureLine
  else
    match messagesData.find? (fun msg => msg.role == "assistant") with
    | some msg => extract_assistant_text msg
    | none => fallbackLine

/-- get_api_key of src/app.py: the Streamlit secrets value when the secrets
object is available, else the environment variable, else the sidebar text
input; the final `key or empty` turns a falsy key into the empty string. -/
def get_api_key (hasSecrets : Bool) (secrets env : Option String)
    (typed : String) : String :=
  let key0 : Option String := if hasSecrets then secrets else none
  let key1 : Option String := if optTruthy key0 then key0 else env
  let key2 : Option String := if optTruthy key1 then key1 else some typed
  match key2 with
  | some k => if k.isEmpty then "" else k
  | none => ""

/-- load_system_instruction of src/app.py over the optional override file:
none when system_instruction.txt does not exist, some of its contents when it
does. The present branch returns the trimmed contents; the absent branch
returns the hardcoded fallback. -/
def load_system_instruction (file : Option String) : String :=
  match file with
  | some contents => pyStrip contents
  | none => SYSTEM_PROMPT_FALLBACK

/-- The session-state keys initialize_assistant reads and writes. -/
structure SessionState where
  assistant_id : Option String
  thread_id : Option String
  rag_files : Option (List String)
deriving DecidableEq

/-- The keyword payload that initialize_assistant passes to assistants.create:
always name, instructions and model; the file_search tool and the
tool_resources vector-store binding only when a vector store was made. -/
structure AssistantPayload where
  name : String
  instructions : String
  model : String
  tools : List String
  tool_resources : Option (List String)
deriving DecidableEq

/-- The local and remote effects initialize_assistant can perform, in order. -/
inductive Effect where
  | discoverDocs
  | vectorStoreCreate (name : String)
  | uploadBatch (vectorStoreId : String) (files : List String)
  | assistantCreate (payload : AssistantPayload)
  | threadCreate
deriving DecidableEq

/-- initialize_assistant of src/app.py: a guard on a truthy assistant handle
returns at once with no effect; otherwise documents are discovered (ragFiles
is what find_rag_files returned), a vector store is created and the batch
uploaded only when documents were found, the assistant and the thread are
created, and the fresh handles are recorded in the session state. The fresh
remote identifiers are inputs. -/
def initialize_assistant (state : SessionState) (system_instruction : String)
    (ragFiles : List String) (vectorStoreId assistantId threadId : String) :
    SessionState × List Effect :=
  if optTruthy state.assistant_id then (state, [])
  else
    let hasStore := !ragFiles.isEmpty
    let storeEffects :=
      if hasStore then
        [Effect.vectorStoreCreate "Daaniyal Career Knowledge",
         Effect.uploadBatch vectorStoreId ragFiles]
      else []
    let vsid : Option String := if hasStore then some vectorStoreId else none
    let payload : AssistantPayload :=
      { name := "Daaniyal Khan Executive Career Bot",
        instructions := system_instruction,
        model := "gpt-4o",
        tools := if vsid.isSome then ["file_search"] else [],
        tool_resources := vsid.map (fun v => [v]) }
    ({ assistant_id := some assistantId,
       thread_id := some threadId,
       rag_files := some ragFiles },
     Effect.discoverDocs :: storeEffects ++
       [Effect.assistantCreate payload, Effect.threadCreate])

/-- How many uploadBatch effects a list of effects holds. -/
def countUploads (effects : List Effect) : Nat :=
  effects.countP (fun e => match e with
    | Effect.uploadBatch _ _ => true
    | _ => false)

/-- The seeded greeting turn of the transcript. -/
def greeting : Turn :=
  { role := "assistant",
    content := "Welcome. I am Daaniyal Khan's executive career assistant. Ask me about leadership impact, transformation programs, or strategic fit." }

/-- The transcript seeding of main: when the messages key is absent the list
is created with exactly the greeting turn; an existing list is kept as is. -/
def seed_messages : Option (List Turn) → List Turn
  | none => [greeting]
  | some ms => ms

/-- One append to the transcript (st.session_state.messages.append). -/
def append_turn (ms : List Turn) (t : Turn) : List Turn := ms ++ [t]

/-- Clicking a suggested-question button stages it as the pending prompt. -/
def stage_shortcut (q : String) : Option String := some q

/-- The prompt-selection step of main: a truthy chat-input value is used as
the prompt and leaves the pending slot alone; otherwise a truthy pending
prompt is popped, becoming the prompt and clearing the slot. The pair is the
prompt used for the turn and the pending slot afterwards. -/
def resolve_prompt (typed pending : Option String) : Option String × Option String :=
  if optTruthy pending && !optTruthy typed then (pending, none)
  else (typed, pending)

/-- The commit of the user turn in main, performed before the remote call is
attempted. -/
def commit_user (ms : List Turn) (prompt : String) : List Turn :=
  append_turn ms { role := "user", content := prompt }

/-- The apology string built by the OpenAIError handler of main from the
exception detail. -/
def apology (detail : String) : String :=
  "I could not complete that request due to an API error. Please ask Daaniyal directly in the interview.\n\nDetails: " ++ detail

/-- The assistant text appended for the turn: the reply when the remote call
succeeds, the apology when it raises OpenAIError. -/
def turn_response : Except String String → String
  | Except.ok reply => reply
  | Except.error detail => apology detail

/-- One full iteration of the prompt block of main: commit the user turn,
attempt the remote call, and append its outcome as an assistant turn. -/
def process_turn (ms : List Turn) (prompt : String)
    (callResult : Except String String) : List Turn :=
  append_turn (commit_user ms prompt)
    { role := "assistant", content := turn_response callResult }

/-- Modelled from the spec: the InteractionLogger component (record appending
Timestamp, Role, Content rows to a durable tabular store, the header row
written exactly once, guarded by a pre-check of whether the durable store
already exists) appears in the design but has no code under src/, so its
rows are modelled from the spec words. -/
inductive LogRow where
  | header
  | entry (timestamp role content : String)
deriving DecidableEq

/-- Modelled from the spec: record appends one data row to the durable store;
when the store does not yet exist (none) the header row is written first. The
durable store is the only state, so a process restart between appends changes
nothing the next call can observe. -/
def record (store : Option (List LogRow)) (timestamp role content : String) :
    Option (List LogRow) :=
  match store with
  | none => some [LogRow.header, LogRow.entry timestamp role content]
  | some rows => some (rows ++ [LogRow.entry timestamp role content])

/-- How many header rows a list of log rows holds. -/
def countHeaders (rows : List LogRow) : Nat :=
  rows.countP (fun r => match r with
    | LogRow.header => true
    | _ => false)

end DKBot

namespace DKBot

/-- Helper: a non-empty string has isEmpty false. -/
theorem isEmpty_false_of_ne {s : String} (h : s ≠ "") : s.isEmpty = false := by
  cases hb : s.isEmpty
  · rfl
  · exact absurd ((String.isEmpty_iff s).mp hb) h

/-- Helper: a non-nil list has isEmpty false. -/
theorem list_isEmpty_false_of_ne {α : Type} {l : List α} (h : l ≠ []) :
    l.isEmpty = false := by
  cases l with
  | nil => exact absurd rfl h
  | cons a t => rfl

/-- Helper: N successive appends extend the transcript on the right, in call
order. -/
theorem append_turn_foldl (acc ts : List Turn) :
    ts.foldl append_turn acc = acc ++ ts := by
  induction ts generalizing acc with
  | nil => simp
  | cons t rest ih => simp [append_turn, ih]

/-- C1 counterexample: for a run that does not reach status completed,
ask_assistant returns the fixed issue string, which differs from the fallback
line that the claim names as the one fixed fallback string. -/
theorem C1_counterexample :
    ask_assistant "failed" [] = runFailureLine ∧ runFailureLine ≠ fallbackLine :=
  ⟨rfl, by decide⟩

/-- C1 (amended): a message whose concatenated text fragments are empty after
trimming yields exactly the fallback line from extract_assistant_text, while a
run that does not reach status completed yields from ask_assistant a fixed
string that extends the fallback line with a fixed notice; in both cases the
result is a constant, never empty and never a raw error payload. -/
theorem C1_fallback (m : Msg) (status : String) (msgs : List Msg)
    (hm : pyStrip (concatText m) = "") (hs : status ≠ "completed") :
    extract_assistant_text m = fallbackLine ∧
    ask_assistant status msgs = runFailureLine ∧
    runFailureLine = "I encountered an issue while generating a response. " ++ fallbackLine ∧
    fallbackLine ≠ "" ∧ runFailureLine ≠ "" := by
  refine ⟨?_, ?_, by decide, by decide, by decide⟩
  · simp [extract_assistant_text, hm, String.isEmpty_iff]
  · simp [ask_assistant, hs]

/-- C1 witness at a whitespace-only assistant message and a failed run. -/
theorem C1_fallback_witness :
    extract_assistant_text ⟨"assistant", [⟨"text", " "⟩]⟩ = fallbackLine ∧
    ask_assistant "failed" [] = runFailureLine ∧
    runFailureLine = "I encountered an issue while generating a response. " ++ fallbackLine ∧
    fallbackLine ≠ "" ∧ runFailureLine ≠ "" :=
  C1_fallback ⟨"assistant", [⟨"text", " "⟩]⟩ "failed" [] (by decide) (by decide)

/-- C2: when the remote call raises a service error with the given detail, the
turn block still produces a transcript: the user turn, committed by the step
that precedes the call, stays in place, and the apology built from the error
is appended after it as a normal assistant turn. -/
theorem C2_error_turn (ms : List Turn) (prompt detail : String) :
    commit_user ms prompt = ms ++ [{ role := "user", content := prompt }] ∧
    process_turn ms prompt (Except.error detail) =
      ms ++ [{ role := "user", content := prompt },
             { role := "assistant", content := apology detail }] := by
  constructor
  · rfl
  · simp [process_turn, commit_user, append_turn, turn_response]

/-- C3: get_api_key returns a truthy secret-store value as is, with the same
result whatever the environment and prompt hold, and with no store value
available returns a truthy environment value. -/
theorem C3_precedence (s e : String) (env env2 : Option String)
    (typed typed2 : String) (hs : s ≠ "") (he : e ≠ "") :
    get_api_key true (some s) env typed = s ∧
    get_api_key true (some s) env typed = get_api_key true (some s) env2 typed2 ∧
    get_api_key true none (some e) typed = e := by
  have hsi := isEmpty_false_of_ne hs
  have hei := isEmpty_false_of_ne he
  refine ⟨?_, ?_, ?_⟩ <;> simp [get_api_key, optTruthy, hsi, hei, hs, he]

/-- C3 witness at concrete store, environment and typed values. -/
theorem C3_precedence_witness :
    get_api_key true (some "sk-store") (some "sk-env") "typed" = "sk-store" ∧
    get_api_key true (some "sk-store") (some "sk-env") "typed" =
      get_api_key true (some "sk-store") none "other" ∧
    get_api_key true none (some "sk-env") "typed" = "sk-env" :=
  C3_precedence "sk-store" "sk-env" (some "sk-env") none "typed" "other"
    (by decide) (by decide)

/-- C4: initialize_assistant is idempotent within a session: after a first
call from a fresh state records the fresh handles, the second call is a no-op
with no effect at all (no discovery, no upload, no creation) that leaves the
state unchanged, so across both calls the documents are uploaded exactly
once. -/
theorem C4_idempotent (st : SessionState) (h0 : st.assistant_id = none)
    (instr : String) (ragFiles : List String) (hrag : ragFiles ≠ [])
    (v i t v2 i2 t2 : String) (hi : i ≠ "") :
    (initialize_assistant (initialize_assistant st instr ragFiles v i t).1
        instr ragFiles v2 i2 t2) =
      ((initialize_assistant st instr ragFiles v i t).1, []) ∧
    countUploads ((initialize_assistant st instr ragFiles v i t).2 ++
        (initialize_assistant (initialize_assistant st instr ragFiles v i t).1
          instr ragFiles v2 i2 t2).2) = 1 := by
  have hii := isEmpty_false_of_ne hi
  have hri := list_isEmpty_false_of_ne hrag
  constructor
  · simp [initialize_assistant, optTruthy, h0, hii, hri]
  · simp [initialize_assistant, optTruthy, h0, hii, hri, countUploads,
      List.countP_cons, List.countP_nil, List.countP_append]

/-- C4 witness: a fresh session, one discovered document, fresh remote
identifiers for both calls. -/
theorem C4_idempotent_witness :
    (initialize_assistant
        (initialize_assistant ⟨none, none, none⟩ "instr" ["cv.html"] "vs1" "as1" "th1").1
        "instr" ["cv.html"] "vs2" "as2" "th2") =
      ((initialize_assistant ⟨none, none, none⟩ "instr" ["cv.html"] "vs1" "as1" "th1").1, []) ∧
    countUploads ((initialize_assistant ⟨none, none, none⟩ "instr" ["cv.html"] "vs1" "as1" "th1").2 ++
        (initialize_assistant
          (initialize_assistant ⟨none, none, none⟩ "instr" ["cv.html"] "vs1" "as1" "th1").1
          "instr" ["cv.html"] "vs2" "as2" "th2").2) = 1 :=
  C4_idempotent ⟨none, none, none⟩ rfl "instr" ["cv.html"] (by decide)
    "vs1" "as1" "th1" "vs2" "as2" "th2" (by decide)

/-- C5: the transcript is seeded exactly once and is append-only: a fresh
session seeds exactly the greeting turn, an existing transcript is never
re-seeded, N appends leave the greeting followed by the N appended turns in
call order (N + 1 entries), and an append changes no existing entry. -/
theorem C5_append_only (ms ts : List Turn) (t : Turn) (i : Nat)
    (h : i < ms.length) :
    seed_messages none = [greeting] ∧
    seed_messages (some ms) = ms ∧
    ts.foldl append_turn (seed_messages none) = greeting :: ts ∧
    (ts.foldl append_turn (seed_messages none)).length = ts.length + 1 ∧
    (append_turn ms t)[i]? = ms[i]? := by
  refine ⟨rfl, rfl, ?_, ?_, ?_⟩
  · simp [append_turn_foldl, seed_messages]
  · simp [append_turn_foldl, seed_messages]
  · exact List.getElem?_append_left h

/-- C5 witness at a one-turn transcript, two appended turns and index zero. -/
theorem C5_append_only_witness :
    seed_messages none = [greeting] ∧
    seed_messages (some [greeting]) = [greeting] ∧
    ([⟨"user", "q"⟩, ⟨"assistant", "a"⟩] : List Turn).foldl append_turn (seed_messages none) =
      greeting :: [⟨"user", "q"⟩, ⟨"assistant", "a"⟩] ∧
    (([⟨"user", "q"⟩, ⟨"assistant", "a"⟩] : List Turn).foldl append_turn (seed_messages none)).length =
      ([⟨"user", "q"⟩, ⟨"assistant", "a"⟩] : List Turn).length + 1 ∧
    (append_turn [greeting] ⟨"user", "q"⟩)[0]? = ([greeting] : List Turn)[0]? :=
  C5_append_only [greeting] [⟨"user", "q"⟩, ⟨"assistant", "a"⟩] ⟨"user", "q"⟩ 0
    (by decide)

/-- C6: a staged shortcut is consumed at most once: with no typed input the
first resolution returns the staged question and clears the slot and the
second returns none; a truthy typed input present in the same cycle is used as
the prompt in preference to the staged shortcut. -/
theorem C6_shortcut (q p : String) (hq : q ≠ "") (hp : p ≠ "") :
    resolve_prompt none (stage_shortcut q) = (some q, none) ∧
    resolve_prompt none (resolve_prompt none (stage_shortcut q)).2 = (none, none) ∧
    resolve_prompt (some p) (stage_shortcut q) = (some p, some q) := by
  have hqi := isEmpty_false_of_ne hq
  have hpi := isEmpty_false_of_ne hp
  refine ⟨?_, ?_, ?_⟩ <;>
    simp [resolve_prompt, stage_shortcut, optTruthy, hqi, hpi]

/-- C6 witness at a concrete suggested question and typed prompt. -/
theorem C6_shortcut_witness :
    resolve_prompt none (stage_shortcut "What was the Digital VO Project?") =
      (some "What was the Digital VO Project?", none) ∧
    resolve_prompt none
        (resolve_prompt none (stage_shortcut "What was the Digital VO Project?")).2 =
      (none, none) ∧
    resolve_prompt (some "typed question")
        (stage_shortcut "What was the Digital VO Project?") =
      (some "typed question", some "What was the Digital VO Project?") :=
  C6_shortcut "What was the Digital VO Project?" "typed question"
    (by decide) (by decide)

/-- C7 counterexample: with the override file present but empty,
load_system_instruction returns the empty string, not the hardcoded fallback
the claim requires for a present-but-empty file. -/
theorem C7_counterexample :
    load_system_instruction (some "") = "" ∧
    load_system_instruction (some "") ≠ SYSTEM_PROMPT_FALLBACK := by
  constructor
  · decide
  · decide

/-- C7 (amended): load_system_instruction returns the stripped override file
text whenever the file is present — even when that text is empty — and returns
the hardcoded fallback exactly when the file is absent. -/
theorem C7_override (contents : String) :
    load_system_instruction (some contents) = pyStrip contents ∧
    load_system_instruction none = SYSTEM_PROMPT_FALLBACK :=
  ⟨rfl, rfl⟩

/-- C8: with zero documents discovered, initialize_assistant creates no vector
store and uploads nothing, the assistant payload carries no file_search tool
and no tool resources, and the call still completes, recording the fresh
assistant and thread handles with an empty document list. -/
theorem C8_no_grounding (st : SessionState) (h0 : st.assistant_id = none)
    (instr v i t : String) :
    initialize_assistant st instr [] v i t =
      ({ assistant_id := some i, thread_id := some t, rag_files := some [] },
       [Effect.discoverDocs,
        Effect.assistantCreate
          { name := "Daaniyal Khan Executive Career Bot",
            instructions := instr, model := "gpt-4o",
            tools := [], tool_resources := none },
        Effect.threadCreate]) := by
  simp [initialize_assistant, optTruthy, h0]

/-- C8 witness at a fresh session with no documents. -/
theorem C8_no_grounding_witness :
    initialize_assistant ⟨none, none, none⟩ "instr" [] "vs" "as" "th" =
      ({ assistant_id := some "as", thread_id := some "th", rag_files := some [] },
       [Effect.discoverDocs,
        Effect.assistantCreate
          { name := "Daaniyal Khan Executive Career Bot",
            instructions := "instr", model := "gpt-4o",
            tools := [], tool_resources := none },
        Effect.threadCreate]) :=
  C8_no_grounding ⟨none, none, none⟩ rfl "instr" "vs" "as" "th"

/-- C9 (modelled from the spec): three record calls on a fresh, not yet
existing durable store produce exactly one header row followed by the three
data rows in order; the header guard is the existence of the store, the only
state there is, so process restarts between appends change nothing. -/
theorem C9_header_once (t1 r1 c1 t2 r2 c2 t3 r3 c3 : String) :
    record (record (record none t1 r1 c1) t2 r2 c2) t3 r3 c3 =
      some [LogRow.header, LogRow.entry t1 r1 c1, LogRow.entry t2 r2 c2,
            LogRow.entry t3 r3 c3] ∧
    countHeaders [LogRow.header, LogRow.entry t1 r1 c1, LogRow.entry t2 r2 c2,
            LogRow.entry t3 r3 c3] = 1 := by
  constructor
  · rfl
  · simp [countHeaders]

/-- C10: a run that completes but whose message listing holds no
assistant-role message at all makes ask_assistant return exactly the fallback
line. -/
theorem C10_no_assistant (msgs : List Msg)
    (h : ∀ m ∈ msgs, m.role ≠ "assistant") :
    ask_assistant "completed" msgs = fallbackLine := by
  have hfind : msgs.find? (fun msg => msg.role == "assistant") = none := by
    rw [List.find?_eq_none]
    intro m hm
    simp [h m hm]
  simp [ask_assistant, hfind]

/-- C10 witness: a completed run whose listing holds only a user message. -/
theorem C10_no_assistant_witness :
    ask_assistant "completed" [⟨"user", [⟨"text", "hi"⟩]⟩] = fallbackLine :=
  C10_no_assistant [⟨"user", [⟨"text", "hi"⟩]⟩] (by decide)

end DKBot
